import Mathlib

/-!
Shallow embedding of the KPI analytics query engine of the telecom AI copilot
repository (source file `tools.py`).  The five public tools read two tabular
datasets (a cleaned measurement table and a precomputed anomaly table), apply
entity and date filters and render a text report; every tool wraps its body in
a single top-level exception handler that converts any internal fault into an
error-text string.

Modelling conventions:
* a table is a column-name list plus a row list; a row stores the parsed
  `Date` cell as `Option Int` (a day number; `none` is pandas `NaT`, the
  result of `pd.to_datetime(..., errors="coerce")` on an unparsable cell),
  the `Site_ID` / `Sector_ID` cells as `Option String`, and the numeric KPI
  cells as a partial map from column name to rational (`none` = missing);
* a caller-supplied date-string argument is quotiented by how
  `pd.to_datetime` treats it: `omitted` (Python `None` or `""`, both falsy),
  `invalid` (a non-empty string that does not parse; coerced to `NaT` by the
  tolerant parser, raised on by the strict parser), or `valid d`;
* floats become rationals, `timedelta(days=k)` becomes subtraction of `k`
  on day numbers, `NaT` comparisons are `false`, and `Series.max()` of an
  empty series is `NaT` (`none`);
* a tool body is `Except String String`: `.error` is a raised Python
  exception (`KeyError` for a missing column, the `NameError` on the unbound
  `Kpis` variable, a strict date-parse failure, the statistical-test
  failure), and the public tool is the body run through the top-level
  `try/except` that prefixes the error text;
* the external `grangercausalitytests` library call is an opaque parameter:
  a function from the aligned two-column data to the pair of `ssr_ftest`
  p-values for lags 1 and 2 (or a raised error on insufficient data).
-/

/-- DateArg is a caller-supplied date string quotiented by its parse
behaviour: `omitted` for Python `None` or the empty string (both falsy),
`invalid` for a non-empty unparsable string, `valid d` for a string parsing
to day number `d`. -/
inductive DateArg where
  | omitted
  | invalid
  | valid (d : Int)
deriving DecidableEq

/-- MRow is one row of the cleaned measurement table `KPI_data_cleaned.csv`:
parsed date (`none` = `NaT`), site id, sector id, and the numeric KPI cells
as a partial map from column name to value. -/
structure MRow where
  date : Option Int
  site : Option String
  sector : Option String
  val : String → Option ℚ

/-- MTable is the measurement table: its column-name list (used to model
pandas `KeyError` on a missing column) and its rows. -/
structure MTable where
  cols : List String
  rows : List MRow

/-- ARow is one row of the precomputed anomaly table `df_ensemble.csv`:
parsed date, site id, sector id, the `KPI` column naming the flagged
channel, and the numeric value cells. -/
structure ARow where
  date : Option Int
  site : Option String
  sector : Option String
  kpiName : String
  val : String → Option ℚ

/-- ATable is the anomaly table: column names plus rows. -/
structure ATable where
  cols : List String
  rows : List ARow

/-- dateLE is the pandas comparison `a <= b` on datetime cells: any
comparison involving `NaT` is `False`. -/
def dateLE (a b : Option Int) : Bool :=
  match a, b with
  | some x, some y => decide (x ≤ y)
  | _, _ => false

/-- inWindow is the conjunction `(Date >= start) & (Date <= end)` used by the
range filters; a `none` bound (`NaT`) makes the corresponding comparison
`False` for every row. -/
def inWindow (startB endB : Option Int) (d : Option Int) : Bool :=
  dateLE startB d && dateLE d endB

/-- meanQ is the arithmetic mean of a list of rationals (pandas
`Series.mean`); all uses in the claims guard against the empty list, on
which the rational division yields `0`. -/
def meanQ (xs : List ℚ) : ℚ := xs.sum / (xs.length : ℚ)

/-- maxDateOf is `Series.max()` over the parsed dates of a row list:
missing dates are skipped and the maximum of an empty series is `NaT`
(`none`). -/
def maxDateOf (ds : List (Option Int)) : Option Int :=
  (ds.filterMap id).foldl
    (fun acc d => match acc with
      | none => some d
      | some m => some (max m d)) none

/-- fmtD renders a date bound the way the report f-strings do (`NaT` prints
as the text `NaT`); the day number stands in for the calendar rendering. -/
def fmtD : Option Int → String
  | none => "NaT"
  | some d => toString d

/-- fmtQ renders a rational value inside a report (stand-in for the
`:.2f` float formatting of the source). -/
def fmtQ (q : ℚ) : String := toString q.num ++ "/" ++ toString q.den

/-- strLower is `str.lower()` (char-wise lower-casing of the string). -/
def strLower (s : String) : String := String.mk (s.data.map Char.toLower)

/-- runTool is the top-level `try/except` of every tool: an `ok` body result
is returned as is, a raised internal fault is rendered as the tool-specific
error prefix followed by the exception text. -/
def runTool (pre : String) : Except String String → String
  | .ok s => s
  | .error e => pre ++ e

/-- usableRows is `df.dropna(subset=["Date", "Site_ID", kpi])` on the
measurement table: only rows with a parsed date, a site id and a value for
the requested KPI column survive. -/
def usableRows (t : MTable) (kpi : String) : List MRow :=
  t.rows.filter (fun r => r.date.isSome && r.site.isSome && (r.val kpi).isSome)

/-- resolveEndExtreme computes the effective end bound of
`get_site_kpi_extreme`: the tolerant parse of the argument when given
(`NaT` when unparsable), else the maximum date of the cleaned table. -/
def resolveEndExtreme (df : List MRow) : DateArg → Option Int
  | .omitted => maxDateOf (df.map (·.date))
  | .invalid => none
  | .valid d => some d

/-- resolveStartExtreme computes the effective start bound of
`get_site_kpi_extreme`: the tolerant parse when given, else
`end_date - timedelta(days=7)` (and `NaT - 7 days = NaT`). -/
def resolveStartExtreme (endB : Option Int) : DateArg → Option Int
  | .omitted => endB.map (· - 7)
  | .invalid => none
  | .valid d => some d

/-- uniqueSites is the key list of `filtered.groupby("Site_ID")`: the
distinct site ids in sorted order (pandas groupby sorts its keys). -/
def uniqueSites (rs : List MRow) : List String :=
  ((rs.filterMap (·.site)).dedup).insertionSort (fun a b => a.data ≤ b.data)

/-- siteAverages is `filtered.groupby("Site_ID")[kpi].mean()`: one
(site, mean of the KPI over that site) pair per distinct site, in
sorted key order. -/
def siteAverages (rs : List MRow) (kpi : String) : List (String × ℚ) :=
  (uniqueSites rs).map (fun s =>
    (s, meanQ ((rs.filter (fun r => decide (r.site = some s))).filterMap (fun r => r.val kpi))))

/-- pickMax folds `Series.idxmax` over an association list: it keeps the
first pair achieving the maximum value (replacement only on strict
increase). -/
def pickMax (p : String × ℚ) (l : List (String × ℚ)) : String × ℚ :=
  l.foldl (fun best q => if best.2 < q.2 then q else best) p

/-- pickMin folds `Series.idxmin`: the first pair achieving the minimum. -/
def pickMin (p : String × ℚ) (l : List (String × ℚ)) : String × ℚ :=
  l.foldl (fun best q => if q.2 < best.2 then q else best) p

/-- argmaxPair is `idxmax` on a possibly empty association list; pandas
raises on the empty series, modelled by `none`. -/
def argmaxPair : List (String × ℚ) → Option (String × ℚ)
  | [] => none
  | p :: ps => some (pickMax p ps)

/-- argminPair is `idxmin` on a possibly empty association list. -/
def argminPair : List (String × ℚ) → Option (String × ℚ)
  | [] => none
  | p :: ps => some (pickMin p ps)

/-- extremePick is the branch on `extreme_type.lower() == "lowest"` selecting
between `idxmin` and `idxmax` over the per-site averages. -/
def extremePick (avgs : List (String × ℚ)) (extremeType : String) : Option (String × ℚ) :=
  if strLower extremeType = "lowest" then argminPair avgs else argmaxPair avgs

/-- extremeLabel is the `direction` word used in the report. -/
def extremeLabel (extremeType : String) : String :=
  if strLower extremeType = "lowest" then "lowest" else "highest"

/-- siteExtremeBody is the body of `get_site_kpi_extreme` (tools.py lines
38-77): clean the table, resolve the window (default end = dataset max date,
default start = end - 7 days), filter, and report the site with the extreme
average; a missing KPI column is the raised `KeyError`, and `idxmax` /
`idxmin` on an empty grouping is the raised pandas error. -/
def siteExtremeBody (t : MTable) (kpi extremeType : String) (sa ea : DateArg) :
    Except String String :=
  if kpi ∈ t.cols then
    let df := usableRows t kpi
    let endB := resolveEndExtreme df ea
    let startB := resolveStartExtreme endB sa
    let filtered := df.filter (fun r => inWindow startB endB r.date)
    if filtered.isEmpty then
      .ok ("No data available for `" ++ kpi ++ "` between " ++ fmtD startB ++
        " and " ++ fmtD endB ++ ".")
    else
      match extremePick (siteAverages filtered kpi) extremeType with
      | some (s, v) =>
          .ok ("Between **" ++ fmtD startB ++ "** and **" ++ fmtD endB ++ "**, site `" ++
            s ++ "` had the " ++ extremeLabel extremeType ++ " average **" ++ kpi ++
            "** of **" ++ fmtQ v ++ "**.")
      | none => .error "attempt to get argmax of an empty sequence"
  else .error ("KeyError: " ++ kpi)

/-- get_site_kpi_extreme is the public tool: its body under the top-level
handler with the prefix of tools.py line 80. -/
def get_site_kpi_extreme (t : MTable) (kpi extremeType : String) (sa ea : DateArg) : String :=
  runTool "Error processing KPI data: " (siteExtremeBody t kpi extremeType sa ea)

/-- PeakOutcome classifies the branch taken by the body of
`get_peak_kpi_day_for_site` (tools.py lines 113-153): raised `KeyError` on a
missing KPI column, the NotFound report when the site has no usable rows at
all, the EmptyResult report when the date window leaves none, or the success
report carrying the extreme row and the window bounds. -/
inductive PeakOutcome where
  | keyError (kpi : String)
  | notFound (siteId : String)
  | emptyWindow (siteId : String) (a b : Option Int)
  | found (siteId kpi label : String) (d : Option Int) (v : Option ℚ) (a b : Option Int)
deriving DecidableEq

/-- siteRowsOf is the usable-row list of one site: the measurement table
after `dropna(subset=["Date", "Site_ID", kpi])` restricted to
`Site_ID == site_id`, before any date filtering. -/
def siteRowsOf (t : MTable) (kpi siteId : String) : List MRow :=
  (usableRows t kpi).filter (fun r => decide (r.site = some siteId))

/-- resolveEndPeak is the effective end bound of `get_peak_kpi_day_for_site`:
the tolerant parse when the argument is given, else the maximum date present
for the site. -/
def resolveEndPeak (siteDf : List MRow) : DateArg → Option Int
  | .omitted => maxDateOf (siteDf.map (·.date))
  | .invalid => none
  | .valid d => some d

/-- resolveStartPeak is the effective start bound: the tolerant parse when
given, else `end_date - timedelta(days=30)`. -/
def resolveStartPeak (endB : Option Int) : DateArg → Option Int
  | .omitted => endB.map (· - 30)
  | .invalid => none
  | .valid d => some d

/-- peakWindowBounds packages the (start, end) bounds the peak tool filters
with, resolved from the site rows and the two date arguments. -/
def peakWindowBounds (siteDf : List MRow) (sa ea : DateArg) : Option Int × Option Int :=
  let endB := resolveEndPeak siteDf ea
  (resolveStartPeak endB sa, endB)

/-- peakWindowRows is the site row list after the inclusive date-range
filter of tools.py line 134. -/
def peakWindowRows (t : MTable) (kpi siteId : String) (sa ea : DateArg) : List MRow :=
  let siteDf := siteRowsOf t kpi siteId
  let b := peakWindowBounds siteDf sa ea
  siteDf.filter (fun r => inWindow b.1 b.2 r.date)

/-- rowPickMax folds `Series.idxmax` over rows keyed by a KPI column: it
keeps the first row achieving the maximum value; a missing value reads as
the `0` the fold never prefers (all rows here have the value present). -/
def rowPickMax (kpi : String) (p : MRow) (l : List MRow) : MRow :=
  l.foldl (fun best q =>
    if ((best.val kpi).getD 0) < ((q.val kpi).getD 0) then q else best) p

/-- rowPickMin folds `Series.idxmin` over rows keyed by a KPI column. -/
def rowPickMin (kpi : String) (p : MRow) (l : List MRow) : MRow :=
  l.foldl (fun best q =>
    if ((q.val kpi).getD 0) < ((best.val kpi).getD 0) then q else best) p

/-- peakOutcome mirrors the branch structure of the body of
`get_peak_kpi_day_for_site`: KeyError on a missing column, NotFound before
any date handling, window resolution, EmptyResult on an empty window, else
the first row with the extreme KPI value. -/
def peakOutcome (t : MTable) (siteId kpi extremeType : String) (sa ea : DateArg) :
    PeakOutcome :=
  if kpi ∈ t.cols then
    let siteDf := siteRowsOf t kpi siteId
    if siteDf.isEmpty then .notFound siteId
    else
      let b := peakWindowBounds siteDf sa ea
      match peakWindowRows t kpi siteId sa ea with
      | [] => .emptyWindow siteId b.1 b.2
      | r :: rs =>
          let peakRow := if strLower extremeType = "lowest"
            then rowPickMin kpi r rs else rowPickMax kpi r rs
          .found siteId kpi (extremeLabel extremeType) peakRow.date (peakRow.val kpi) b.1 b.2
  else .keyError kpi

/-- renderPeak renders each branch of the peak tool to its body result:
the raised `KeyError` stays an error, the three reports become strings as
in tools.py lines 121, 137 and 150-153. -/
def renderPeak : PeakOutcome → Except String String
  | .keyError k => .error ("KeyError: " ++ k)
  | .notFound siteId => .ok ("No data found for site `" ++ siteId ++ "`.")
  | .emptyWindow siteId a b =>
      .ok ("No data found for `" ++ siteId ++ "` between " ++ fmtD a ++ " and " ++
        fmtD b ++ ".")
  | .found siteId kpi label d v a b =>
      .ok (" On **" ++ fmtD d ++ "**, site `" ++ siteId ++ "` had the " ++ label ++
        " **" ++ kpi ++ "** of **" ++ (match v with | some q => fmtQ q | none => "nan") ++
        "** between " ++ fmtD a ++ " and " ++ fmtD b ++ ".")

/-- get_peak_kpi_day_for_site is the public tool: the rendered outcome under
the top-level handler with the prefix of tools.py line 156. -/
def get_peak_kpi_day_for_site (t : MTable) (siteId kpi extremeType : String)
    (sa ea : DateArg) : String :=
  runTool "Error processing request: " (renderPeak (peakOutcome t siteId kpi extremeType sa ea))

/-- compareBaseRows is tools.py lines 182-187 for `compare_kpi_impact`:
`dropna(subset=["Date", "Site_ID", kpi_x, kpi_y])` then the optional
`Site_ID` equality filter. -/
def compareBaseRows (t : MTable) (x y : String) (siteId : Option String) : List MRow :=
  let df := t.rows.filter (fun r =>
    r.date.isSome && r.site.isSome && (r.val x).isSome && (r.val y).isSome)
  match siteId with
  | none => df
  | some s => df.filter (fun r => decide (r.site = some s))

/-- strictGeRows is `df[df["Date"] >= pd.to_datetime(start_date)]` with the
STRICT parser of tools.py line 190: an unparsable date string raises instead
of coercing to `NaT`, and an omitted (falsy) argument skips the filter. -/
def strictGeRows (a : DateArg) (rs : List MRow) : Except String (List MRow) :=
  match a with
  | .omitted => .ok rs
  | .invalid => .error "Unknown datetime string format"
  | .valid d => .ok (rs.filter (fun r => dateLE (some d) r.date))

/-- strictLeRows is the strict end-bound filter of tools.py line 192. -/
def strictLeRows (a : DateArg) (rs : List MRow) : Except String (List MRow) :=
  match a with
  | .omitted => .ok rs
  | .invalid => .error "Unknown datetime string format"
  | .valid d => .ok (rs.filter (fun r => dateLE r.date (some d)))

/-- sortByDate is `df.sort_values("Date")`: rows ordered by ascending date
key (rows here all carry a parsed date, so the `getD` default never
matters; order among equal dates is implementation-defined and modelled as
stable). -/
def sortByDate (rs : List MRow) : List MRow :=
  rs.insertionSort (fun a b => a.date.getD 0 ≤ b.date.getD 0)

/-- comparePipeline is the whole data-preparation prefix of
`compare_kpi_impact` (tools.py lines 182-198): clean + entity filter, the
two strict date filters, the emptiness test deferred to the caller, and the
date sort. -/
def comparePipeline (t : MTable) (x y : String) (siteId : Option String)
    (sa ea : DateArg) : Except String (List MRow) :=
  match strictGeRows sa (compareBaseRows t x y siteId) with
  | .error e => .error e
  | .ok rs1 =>
      match strictLeRows ea rs1 with
      | .error e => .error e
      | .ok rs2 => .ok (sortByDate rs2)

/-- diffsOf is the first-difference step of tools.py lines 201-204: the
(ΔX, ΔY) pair of each row against its predecessor in the sorted order; the
first row has no predecessor (its NaN diff is dropped by the `dropna`). -/
def diffsOf (rs : List MRow) (x y : String) : List (ℚ × ℚ) :=
  (rs.zip rs.tail).map (fun p =>
    ((p.2.val x).getD 0 - (p.1.val x).getD 0, (p.2.val y).getD 0 - (p.1.val y).getD 0))

/-- risingX is `valid[valid["ΔX"] > 0]`. -/
def risingX (diffs : List (ℚ × ℚ)) : List (ℚ × ℚ) :=
  diffs.filter (fun p => decide (0 < p.1))

/-- risingBoth is `rising_x[rising_x["ΔY"] > 0]`. -/
def risingBoth (diffs : List (ℚ × ℚ)) : List (ℚ × ℚ) :=
  (risingX diffs).filter (fun p => decide (0 < p.2))

/-- dirFraction is the directional conditional probability of tools.py
lines 208-215: `len(rising_both) / len(rising_x)` guarded to `0` when no
row has a positive ΔX. -/
def dirFraction (diffs : List (ℚ × ℚ)) : ℚ :=
  if (risingX diffs).length = 0 then 0
  else ((risingBoth diffs).length : ℚ) / ((risingX diffs).length : ℚ)

/-- noPosMsg is the message of tools.py lines 209-211 for the case with no
positive ΔX rows. -/
def noPosMsg (x y : String) : String :=
  "No positive changes in " ++ x ++ " to evaluate directional effect on " ++ y ++ "."

/-- siteScope renders the report fragment naming the selected scope. -/
def siteScope : Option String → String
  | some s => "for site `" ++ s ++ "`"
  | none => "(all sites)"

/-- dirCommentOf is the directional comment of tools.py lines 208-221: the
no-positive-changes message, or the conditional-probability sentence with
the 0.45 likely/weak threshold. -/
def dirCommentOf (diffs : List (ℚ × ℚ)) (x y : String) (siteId : Option String) : String :=
  if (risingX diffs).length = 0 then noPosMsg x y
  else
    "When **" ++ x ++ " increases**, **" ++ y ++ " increases** " ++
    fmtQ (dirFraction diffs * 100) ++ "% of the time over the selected period " ++
    siteScope siteId ++ ". This suggests a " ++
    (if (9 : ℚ) / 20 < dirFraction diffs then "likely" else "weak") ++
    " directional relationship."

/-- grangerInput is `df[[kpi_y, kpi_x]]` of tools.py line 226: the aligned
series with the RESPONSE column `kpi_y` first, over all filtered sorted
rows (both columns are present on every row by the earlier dropna). -/
def grangerInput (rs : List MRow) (x y : String) : List (ℚ × ℚ) :=
  rs.map (fun r => ((r.val y).getD 0, (r.val x).getD 0))

/-- bestPValue is tools.py line 229: the minimum `ssr_ftest` p-value over
the lag range 1..2 returned by the library call. -/
def bestPValue (p1 p2 : ℚ) : ℚ := min p1 p2

/-- predictText is the significant branch of the Granger comment. -/
def predictText (x y : String) : String :=
  "Since the p-value is less than 0.05, this suggests that changes in **`" ++ x ++
  "` likely help predict future values of `" ++ y ++ "`** (i.e., `" ++ x ++
  "` Granger-causes `" ++ y ++ "`).\n"

/-- noEvidenceText is the non-significant branch of the Granger comment. -/
def noEvidenceText (x y : String) : String :=
  "Since the p-value is greater than 0.05, there is **no statistical evidence** that `" ++
  x ++ "` helps predict `" ++ y ++ "`.\n"

/-- grangerHead is the constant part of the Granger comment up to and
including the p-value line. -/
def grangerHead (x y : String) (p : ℚ) : String :=
  "**Granger Causality Test**: Examining whether changes in `" ++ x ++
  "` help predict future changes in `" ++ y ++ "`.\n→ The p-value is **" ++ fmtQ p ++
  "**.\n"

/-- grangerCommentOf is tools.py lines 230-240: the header plus the branch
on `best_p_value < 0.05`. -/
def grangerCommentOf (x y : String) (p : ℚ) : String :=
  grangerHead x y p ++ (if p < (1 : ℚ) / 20 then predictText x y else noEvidenceText x y)

/-- answerNote is the trailing instruction of tools.py line 242. -/
def answerNote : String :=
  "Answer the quetion with general knowedge with the above results as proof with numbers."

/-- compareBody is the body of `compare_kpi_impact` (tools.py lines
181-242), parameterised by the opaque `grangercausalitytests` library call
`gr` that maps the y-first aligned data to the `ssr_ftest` p-values for lags
1 and 2 (or raises). A missing KPI column is the raised `KeyError` of the
initial dropna. -/
def compareBody (gr : List (ℚ × ℚ) → Except String (ℚ × ℚ)) (t : MTable)
    (x y : String) (siteId : Option String) (sa ea : DateArg) : Except String String :=
  if x ∈ t.cols ∧ y ∈ t.cols then
    match comparePipeline t x y siteId sa ea with
    | .error e => .error e
    | .ok rs =>
        if rs.isEmpty then
          .ok ("No data available for " ++ x ++ " and " ++ y ++ ".")
        else
          let diffs := diffsOf rs x y
          match gr (grangerInput rs x y) with
          | .error e => .error e
          | .ok (p1, p2) =>
              .ok (dirCommentOf diffs x y siteId ++ "\n\n" ++
                grangerCommentOf x y (bestPValue p1 p2) ++ answerNote)
  else .error "KeyError"

/-- compare_kpi_impact is the public tool: its body under the top-level
handler with the prefix of tools.py line 245. -/
def compare_kpi_impact (gr : List (ℚ × ℚ) → Except String (ℚ × ℚ)) (t : MTable)
    (x y : String) (siteId : Option String) (sa ea : DateArg) : String :=
  runTool "Error evaluating directional KPI impact: " (compareBody gr t x y siteId sa ea)

/-- minQOf is `Series.min` over present values (`nan` text on empty is
handled by the caller). -/
def minQOf (xs : List ℚ) : Option ℚ :=
  xs.foldl (fun acc v => match acc with
    | none => some v
    | some m => some (min m v)) none

/-- maxQOf is `Series.max` over present values. -/
def maxQOf (xs : List ℚ) : Option ℚ :=
  xs.foldl (fun acc v => match acc with
    | none => some v
    | some m => some (max m v)) none

/-- kpiStatLine is one per-KPI block of the dataset summary (tools.py lines
280-287): missing count, mean, min, max of one column. -/
def kpiStatLine (t : MTable) (k : String) : String :=
  let present := t.rows.filterMap (fun r => r.val k)
  let missing := t.rows.length - present.length
  "• **" ++ k ++ "**\n  - Missing values: " ++ toString missing ++
  "\n  - Mean: " ++ fmtQ (meanQ present) ++
  "\n  - Min: " ++ (match minQOf present with | some q => fmtQ q | none => "nan") ++
  "\n  - Max: " ++ (match maxQOf present with | some q => fmtQ q | none => "nan") ++ "\n"

/-- describeBody is the body of `describe_kpi_dataset` (tools.py lines
256-289): the empty-dataset message, else the overview (date span, distinct
site and sector counts, KPI column list) followed by per-KPI statistics;
KPI columns are every column other than Date / Site_ID / Sector_ID. -/
def describeBody (t : MTable) : Except String String :=
  if t.rows.isEmpty then .ok "Dataset appears empty or could not be parsed."
  else
    let minD := (t.rows.map (·.date)).filterMap id |>.foldl
      (fun acc d => match acc with | none => some d | some m => some (min m d)) none
    let maxD := maxDateOf (t.rows.map (·.date))
    let kpiCols := t.cols.filter (fun c => c ∉ ["Date", "Site_ID", "Sector_ID"])
    let numSites := ((t.rows.filterMap (·.site)).dedup).length
    let numSectors := if "Sector_ID" ∈ t.cols
      then toString ((t.rows.filterMap (·.sector)).dedup).length else "N/A"
    .ok ("**KPI Dataset Overview**\n- Date Range: **" ++ fmtD minD ++ " to " ++
      fmtD maxD ++ "**\n- Sites: **" ++ toString numSites ++ "**\n- Sectors: **" ++
      numSectors ++ "**\n- Available KPIs (" ++ toString kpiCols.length ++ "): " ++
      String.intercalate ", " kpiCols ++ "\n\n**Per-KPI Statistics**\n" ++
      String.join (kpiCols.map (kpiStatLine t)))

/-- describe_kpi_dataset is the public tool: its body under the top-level
handler with the prefix of tools.py line 292. -/
def describe_kpi_dataset (t : MTable) : String :=
  runTool "Failed to describe KPI dataset: " (describeBody t)

/-- coerceGeFilter is `if start_date: df = df[df["Date"] >= pd.to_datetime(
start_date, errors="coerce")]`: an omitted (falsy) argument applies no
filter, an unparsable argument coerces to `NaT` whose comparison is `False`
on every row, a valid argument keeps rows at or after it. -/
def coerceGeFilter (dateOf : α → Option Int) : DateArg → List α → List α
  | .omitted, rs => rs
  | .invalid, rs => rs.filter (fun _ => false)
  | .valid d, rs => rs.filter (fun r => dateLE (some d) (dateOf r))

/-- coerceLeFilter is the matching tolerant end-bound filter. -/
def coerceLeFilter (dateOf : α → Option Int) : DateArg → List α → List α
  | .omitted, rs => rs
  | .invalid, rs => rs.filter (fun _ => false)
  | .valid d, rs => rs.filter (fun r => dateLE (dateOf r) (some d))

/-- anomEntityRows is the `Site_ID` / `Sector_ID` equality filtering applied
to anomaly rows (an omitted or empty id, both falsy, applies no filter). -/
def anomEntityRows (siteId sectorId : Option String) (rs : List ARow) : List ARow :=
  let rs1 := match siteId with
    | none => rs
    | some s => rs.filter (fun r => decide (r.site = some s))
  match sectorId with
  | none => rs1
  | some s => rs1.filter (fun r => decide (r.sector = some s))

/-- anomFilteredRows is step 1 of `kpi_anomalies` (tools.py lines 333-341):
the anomaly table filtered to `KPI == kpi_name`, then entity filters, then
the tolerant date-range filters. -/
def anomFilteredRows (kpi : String) (siteId sectorId : Option String)
    (sa ea : DateArg) (ens : ATable) : List ARow :=
  coerceLeFilter (·.date) ea
    (coerceGeFilter (·.date) sa
      (anomEntityRows siteId sectorId
        (ens.rows.filter (fun r => decide (r.kpiName = kpi)))))

/-- baseFilteredRows is the measurement-table reload of tools.py lines
360-372: drop rows missing `kpi_name`, then the same entity and tolerant
date filters. -/
def baseFilteredRows (kpi : String) (siteId sectorId : Option String)
    (sa ea : DateArg) (base : MTable) : List MRow :=
  let df0 := base.rows.filter (fun r => (r.val kpi).isSome)
  let df1 := match siteId with
    | none => df0
    | some s => df0.filter (fun r => decide (r.site = some s))
  let df2 := match sectorId with
    | none => df1
    | some s => df1.filter (fun r => decide (r.sector = some s))
  coerceLeFilter (·.date) ea (coerceGeFilter (·.date) sa df2)

/-- dailyCountsOf is `df_peak_check.groupby("Date").size()`: one (date,
row count) pair per distinct parsed date in sorted order (pandas groupby
drops `NaT` keys). -/
def dailyCountsOf (rs : List ARow) : List (Int × Nat) :=
  (((rs.filterMap (·.date)).dedup).insertionSort (fun a b => a ≤ b)).map
    (fun d => (d, (rs.filter (fun r => decide (r.date = some d))).length))

/-- peakDayPair is `idxmax` on the daily counts: the first date achieving
the maximum anomaly count, `none` on an empty grouping. -/
def peakDayPair : List (Int × Nat) → Option (Int × Nat)
  | [] => none
  | p :: ps => some (ps.foldl (fun best q => if best.2 < q.2 then q else best) p)

/-- peakNoteOf is the peak-anomaly-day note of tools.py lines 344-354
(the empty string when the grouping is empty). -/
def peakNoteOf (kpi : String) (rs : List ARow) : String :=
  match peakDayPair (dailyCountsOf (rs.filter (fun r => decide (r.kpiName = kpi)))) with
  | none => ""
  | some p =>
      "Most anomalies for `" ++ kpi ++ "` occurred on **" ++ toString p.1 ++
      "** with **" ++ toString p.2 ++ " anomalies**.\n\n"

/-- kpiGroupsList is the static `kpi_groups` mapping of tools.py lines
389-394 in its insertion order. -/
def kpiGroupsList : List (String × List String) :=
  [("signal", ["RSRP", "SINR"]),
   ("latency", ["DL_Throughput", "UL_Throughput", "RTT"]),
   ("access", ["Active_Users", "CPU_Utilization", "Handover_Success_Rate"]),
   ("stability", ["Packet_Loss", "Call_Drop_Rate"])]

/-- groupLookup is the lookup loop of tools.py lines 396-401: the first
group whose member list contains the KPI, together with that list; `none`
leaves `group = "unknown"` and the `Kpis` variable unbound. -/
def groupLookup (kpi : String) : Option (String × List String) :=
  kpiGroupsList.find? (fun p => decide (kpi ∈ p.2))

/-- baselineOf is `df_base[kpi_name].mean()`, the baseline average over the
filtered measurement rows. -/
def baselineOf (kpi : String) (siteId sectorId : Option String) (sa ea : DateArg)
    (base : MTable) : ℚ :=
  meanQ ((baseFilteredRows kpi siteId sectorId sa ea base).filterMap (fun r => r.val kpi))

/-- anomalyValuesOf is `anomalies[kpi_name].dropna()`: the present values of
the `kpi_name` column over the filtered anomaly rows. -/
def anomalyValuesOf (kpi : String) (siteId sectorId : Option String) (sa ea : DateArg)
    (ens : ATable) : List ℚ :=
  (anomFilteredRows kpi siteId sectorId sa ea ens).filterMap (fun r => r.val kpi)

/-- aboveOf is the partition of anomaly values strictly above the baseline
(tools.py line 381). -/
def aboveOf (kpi : String) (siteId sectorId : Option String) (sa ea : DateArg)
    (ens : ATable) (base : MTable) : List ℚ :=
  (anomalyValuesOf kpi siteId sectorId sa ea ens).filter
    (fun v => decide (baselineOf kpi siteId sectorId sa ea base < v))

/-- belowOf is the partition of anomaly values at or below the baseline
(tools.py line 382). -/
def belowOf (kpi : String) (siteId sectorId : Option String) (sa ea : DateArg)
    (ens : ATable) (base : MTable) : List ℚ :=
  (anomalyValuesOf kpi siteId sectorId sa ea ens).filter
    (fun v => decide (v ≤ baselineOf kpi siteId sectorId sa ea base))

/-- fmtAvg renders a partition mean, with the `N/A` placeholder printed as
`None` in the report (tools.py lines 441-442). -/
def fmtAvg : Option ℚ → String
  | some v => fmtQ v
  | none => "None"

/-- mainDatesOf is `set(df["Date"])`: the date cells (including a possible
`NaT`) of the filtered main-KPI anomaly rows, used for membership tests. -/
def mainDatesOf (kpi : String) (siteId sectorId : Option String) (sa ea : DateArg)
    (ens : ATable) : List (Option Int) :=
  (anomFilteredRows kpi siteId sectorId sa ea ens).map (·.date)

/-- sameDayRows is tools.py lines 412-422: the anomaly table reloaded,
filtered only by entity (no date-range filter), restricted to the dates on
which the main KPI had anomalies. -/
def sameDayRows (kpi : String) (siteId sectorId : Option String) (sa ea : DateArg)
    (ens : ATable) : List ARow :=
  (anomEntityRows siteId sectorId ens.rows).filter
    (fun r => decide (r.date ∈ mainDatesOf kpi siteId sectorId sa ea ens))

/-- cooccurCountSrc is the per-related-KPI count of tools.py line 425:
the number of same-day anomaly rows carrying that KPI name. -/
def cooccurCountSrc (kpi : String) (siteId sectorId : Option String) (sa ea : DateArg)
    (ens : ATable) (rkpi : String) : Nat :=
  ((sameDayRows kpi siteId sectorId sa ea ens).filter
    (fun r => decide (r.kpiName = rkpi))).length

/-- relatedCountsOf is the `related_counts` mapping of tools.py lines
404-427: for each same-group KPI other than `kpi_name`, in group order, its
same-day count, kept only when positive; the `NameError` on the unbound
`Kpis` variable when no group matched is raised by the caller. -/
def relatedCountsOf (kpi : String) (siteId sectorId : Option String) (sa ea : DateArg)
    (ens : ATable) (kpis : List String) : List (String × Nat) :=
  ((kpis.filter (fun k => decide (k ≠ kpi))).map
    (fun k => (k, cooccurCountSrc kpi siteId sectorId sa ea ens k))).filter
    (fun p => decide (0 < p.2))

/-- relatedSummaryOf is the co-occurrence section text of tools.py lines
429-432 (empty when no related KPI co-occurs; the source string literal
interpolates nothing, `\x7bkpi_name\x7d` is literal text there). -/
def relatedSummaryOf (counts : List (String × Nat)) : String :=
  if counts.isEmpty then ""
  else
    "On the same days, anomalies also occurred in other KPIs which may be cause for anomalies in the main KPI:\n" ++
    String.join (counts.map (fun p => "- `" ++ p.1 ++ "`: " ++ toString p.2 ++ " times\n"))

/-- anomReport is the final report composition of tools.py lines 435-455. -/
def anomReport (kpi : String) (count : Nat) (baseline : ℚ)
    (avgAbove avgBelow : Option ℚ) (group : String) (kpis : List String)
    (peakNote relatedSummary : String) : String :=
  "**Anomaly Summary for KPI: `" ++ kpi ++ "`**\n\n" ++
  "**Date Range Analyzed**: Based on filtered inputs or inferred from peak anomaly activity.\n\n" ++
  "**Key Statistics**:\n- Total anomalies detected: **" ++ toString count ++
  "**\n- Baseline average of `" ++ kpi ++ "`: **" ++ fmtQ baseline ++
  "**\n- Avg anomaly value **above** baseline: **" ++ fmtAvg avgAbove ++
  "**\n- Avg anomaly value **below** baseline: **" ++ fmtAvg avgBelow ++
  "**\n\n**KPI Group Classification**:\n- Group: **" ++ group ++
  "**\n- Related KPIs: " ++ String.intercalate ", " kpis ++
  "\n\n**Peak Anomaly Info**:\n" ++ peakNote ++
  "**Co-occurring Anomalies**:\n" ++ relatedSummary ++
  "\n- Use this above summary about `" ++ kpi ++
  "` trends, anomaly patterns, and relationships to answer with details.\n" ++
  "- If a user asks about **why** anomalies occurred, do **not** generate speculative causes. tell the answer based on the related  kpi summary.\n"

/-- anomBody is the body of `kpi_anomalies` (tools.py lines 328-455): the
anomaly filtering and peak note, the no-anomaly early return, the baseline
reload (raised `KeyError` on a missing measurement column) with its own
empty-result return, the above/below partition (raised `KeyError` on a
missing anomaly value column), the group lookup, and the co-occurrence
section whose `related_kpis` line raises the `NameError` on the unbound
`Kpis` variable when no group matched; everything runs under the single
top-level handler of the public tool. -/
def anomBody (kpi : String) (siteId sectorId : Option String) (sa ea : DateArg)
    (ens : ATable) (base : MTable) : Except String String :=
  let df := anomFilteredRows kpi siteId sectorId sa ea ens
  let peakNote := peakNoteOf kpi df
  if df.isEmpty then
    .ok ("No anomaly data found for `" ++ kpi ++ "` with given filters.")
  else if kpi ∈ base.cols then
    if (baseFilteredRows kpi siteId sectorId sa ea base).isEmpty then
      .ok "No base KPI data found to compare anomalies."
    else if kpi ∈ ens.cols then
      let baseline := baselineOf kpi siteId sectorId sa ea base
      let vals := anomalyValuesOf kpi siteId sectorId sa ea ens
      let above := aboveOf kpi siteId sectorId sa ea ens base
      let below := belowOf kpi siteId sectorId sa ea ens base
      let avgAbove := if above.isEmpty then none else some (meanQ above)
      let avgBelow := if below.isEmpty then none else some (meanQ below)
      match groupLookup kpi with
      | none => .error "name Kpis is not defined"
      | some (g, kpis) =>
          .ok (anomReport kpi vals.length baseline avgAbove avgBelow g.capitalize kpis peakNote
            (relatedSummaryOf (relatedCountsOf kpi siteId sectorId sa ea ens kpis)))
    else .error ("KeyError: " ++ kpi)
  else .error ("KeyError: " ++ kpi)

/-- kpi_anomalies is the public tool: its body under the top-level handler
with the prefix of tools.py line 457. -/
def kpi_anomalies (kpi : String) (siteId sectorId : Option String) (sa ea : DateArg)
    (ens : ATable) (base : MTable) : String :=
  runTool "Error analyzing KPI anomalies: " (anomBody kpi siteId sectorId sa ea ens base)

/-- kpiAnomaliesDefault is a call of `kpi_anomalies` with the Python default
arguments `start_date="2024-01-01"`, `end_date="2024-02-29"`, with day
numbers counted from 2024-01-01. -/
def kpiAnomaliesDefault (kpi : String) (siteId sectorId : Option String)
    (ens : ATable) (base : MTable) : String :=
  kpi_anomalies kpi siteId sectorId (.valid 0) (.valid 59) ens base

/-- anomRowsEntityOnly follows the spec wording of the co-occurrence /
all-dates reading: the anomaly rows of the KPI filtered only by entity,
with no date-range condition. -/
def anomRowsEntityOnly (kpi : String) (siteId sectorId : Option String)
    (ens : ATable) : List ARow :=
  anomEntityRows siteId sectorId (ens.rows.filter (fun r => decide (r.kpiName = kpi)))

/-- baseRowsEntityOnly follows the spec wording: the measurement rows with
the KPI present, filtered only by entity, over all available dates. -/
def baseRowsEntityOnly (kpi : String) (siteId sectorId : Option String)
    (base : MTable) : List MRow :=
  let df0 := base.rows.filter (fun r => (r.val kpi).isSome)
  let df1 := match siteId with
    | none => df0
    | some s => df0.filter (fun r => decide (r.site = some s))
  match sectorId with
  | none => df1
  | some s => df1.filter (fun r => decide (r.sector = some s))

/-- cooccurCountSpec follows the spec wording of step 7: collect the set of
DISTINCT dates of the filtered main-KPI anomaly rows, take the anomaly
table filtered only by entity, and count the rows of the related KPI whose
date falls in that set. -/
def cooccurCountSpec (kpi : String) (siteId sectorId : Option String) (sa ea : DateArg)
    (ens : ATable) (rkpi : String) : Nat :=
  ((anomEntityRows siteId sectorId ens.rows).filter
    (fun r => decide (r.date ∈ (mainDatesOf kpi siteId sectorId sa ea ens).dedup) &&
      decide (r.kpiName = rkpi))).length

/-- wVal builds the KPI-cell map of a fixture row from an association
list. -/
def wVal (kv : List (String × ℚ)) : String → Option ℚ :=
  fun c => (kv.find? (fun p => decide (p.1 = c))).map (·.2)

/-- wMRow builds a fixture measurement row. -/
def wMRow (d : Int) (s sec : String) (kv : List (String × ℚ)) : MRow :=
  { date := some d, site := some s, sector := some sec, val := wVal kv }

/-- wARow builds a fixture anomaly row. -/
def wARow (d : Int) (s sec k : String) (kv : List (String × ℚ)) : ARow :=
  { date := some d, site := some s, sector := some sec, kpiName := k, val := wVal kv }

/-- wTbl is a small concrete measurement table used by the witnesses. -/
def wTbl : MTable :=
  { cols := ["Date", "Site_ID", "Sector_ID", "SINR", "RSRP", "Foo"],
    rows := [wMRow 0 "SITE_001" "SITE_001_SECTOR_A" [("SINR", 5), ("RSRP", -90), ("Foo", 1)],
             wMRow 1 "SITE_002" "SITE_002_SECTOR_A" [("SINR", 7), ("RSRP", -80), ("Foo", 2)],
             wMRow 2 "SITE_001" "SITE_001_SECTOR_A" [("SINR", 3), ("RSRP", -85), ("Foo", 3)]] }

/-- wEns is a small concrete anomaly table used by the witnesses: one SINR
anomaly and a same-day RSRP anomaly. -/
def wEns : ATable :=
  { cols := ["Date", "Site_ID", "Sector_ID", "KPI", "SINR", "RSRP", "Foo"],
    rows := [wARow 0 "SITE_001" "SITE_001_SECTOR_A" "SINR" [("SINR", 20)],
             wARow 0 "SITE_001" "SITE_001_SECTOR_A" "RSRP" [("RSRP", -120)],
             wARow 2 "SITE_001" "SITE_001_SECTOR_A" "Foo" [("Foo", 9)]] }

/-- wEns2 is the anomaly table of the C2 failing input: two anomaly rows of
a KPI name (`Foo`) that belongs to no semantic group, so the co-occurrence
step raises the unbound-variable fault. -/
def wEns2 : ATable :=
  { cols := ["Date", "Site_ID", "Sector_ID", "KPI", "Foo"],
    rows := [wARow 0 "SITE_001" "SITE_001_SECTOR_A" "Foo" [("Foo", 9)],
             wARow 1 "SITE_001" "SITE_001_SECTOR_A" "Foo" [("Foo", 10)]] }

/-- wEns7 is an anomaly table with one SINR anomaly above and one below the
wTbl baseline of 5. -/
def wEns7 : ATable :=
  { cols := ["Date", "Site_ID", "Sector_ID", "KPI", "SINR"],
    rows := [wARow 0 "SITE_001" "SITE_001_SECTOR_A" "SINR" [("SINR", 20)],
             wARow 1 "SITE_002" "SITE_002_SECTOR_A" "SINR" [("SINR", 1)]] }

/-- wTblOne is a single-row measurement table: with only one usable row
there are no consecutive differences at all, so no difference is
positive. -/
def wTblOne : MTable :=
  { cols := ["Date", "Site_ID", "Sector_ID", "SINR", "RSRP"],
    rows := [wMRow 0 "SITE_001" "SITE_001_SECTOR_A" [("SINR", 9), ("RSRP", -90)]] }

/-- wTbl6 is a two-site measurement table whose SINR site averages differ
(5 versus 7). -/
def wTbl6 : MTable :=
  { cols := ["Date", "Site_ID", "Sector_ID", "SINR"],
    rows := [wMRow 0 "SITE_001" "SITE_001_SECTOR_A" [("SINR", 5)],
             wMRow 0 "SITE_002" "SITE_002_SECTOR_A" [("SINR", 7)]] }

/-- wTbl7 is a single-row measurement table giving an integral SINR
baseline of 5. -/
def wTbl7 : MTable :=
  { cols := ["Date", "Site_ID", "Sector_ID", "SINR"],
    rows := [wMRow 0 "SITE_001" "SITE_001_SECTOR_A" [("SINR", 5)]] }

/-- grW is a fixture library result: p-values 1/100 (lag 1) and 1/10
(lag 2). -/
def grW : List (ℚ × ℚ) → Except String (ℚ × ℚ) := fun _ => .ok (1/100, 1/10)

/-- runTool_cases: the public wrapper either passes an ok body result
through unchanged or returns the prefixed error text of the raised fault. -/
theorem runTool_cases (pre : String) (b : Except String String) :
    (∃ s, b = .ok s ∧ runTool pre b = s) ∨
    (∃ e, b = .error e ∧ runTool pre b = pre ++ e) := by
  cases b with
  | ok s => exact .inl ⟨s, rfl, rfl⟩
  | error e => exact .inr ⟨e, rfl, rfl⟩

/-- C1: every public query operation (get_site_kpi_extreme,
get_peak_kpi_day_for_site, compare_kpi_impact, describe_kpi_dataset,
kpi_anomalies), on every combination of arguments and dataset contents,
returns a string that is either its body's report or the error-text
rendering of its body's internal fault; no exception propagates to the
caller. -/
theorem c1_public_tools_always_return_report_or_error_text
    (t base : MTable) (ens : ATable) (gr : List (ℚ × ℚ) → Except String (ℚ × ℚ))
    (kpi extremeType siteStr x y : String) (siteId sectorId : Option String)
    (sa ea : DateArg) :
    ((∃ s, siteExtremeBody t kpi extremeType sa ea = .ok s ∧
        get_site_kpi_extreme t kpi extremeType sa ea = s) ∨
     (∃ e, siteExtremeBody t kpi extremeType sa ea = .error e ∧
        get_site_kpi_extreme t kpi extremeType sa ea = "Error processing KPI data: " ++ e))
  ∧ ((∃ s, renderPeak (peakOutcome t siteStr kpi extremeType sa ea) = .ok s ∧
        get_peak_kpi_day_for_site t siteStr kpi extremeType sa ea = s) ∨
     (∃ e, renderPeak (peakOutcome t siteStr kpi extremeType sa ea) = .error e ∧
        get_peak_kpi_day_for_site t siteStr kpi extremeType sa ea =
          "Error processing request: " ++ e))
  ∧ ((∃ s, compareBody gr t x y siteId sa ea = .ok s ∧
        compare_kpi_impact gr t x y siteId sa ea = s) ∨
     (∃ e, compareBody gr t x y siteId sa ea = .error e ∧
        compare_kpi_impact gr t x y siteId sa ea =
          "Error evaluating directional KPI impact: " ++ e))
  ∧ ((∃ s, describeBody t = .ok s ∧ describe_kpi_dataset t = s) ∨
     (∃ e, describeBody t = .error e ∧
        describe_kpi_dataset t = "Failed to describe KPI dataset: " ++ e))
  ∧ ((∃ s, anomBody kpi siteId sectorId sa ea ens base = .ok s ∧
        kpi_anomalies kpi siteId sectorId sa ea ens base = s) ∨
     (∃ e, anomBody kpi siteId sectorId sa ea ens base = .error e ∧
        kpi_anomalies kpi siteId sectorId sa ea ens base =
          "Error analyzing KPI anomalies: " ++ e)) :=
  ⟨runTool_cases _ _, runTool_cases _ _, runTool_cases _ _, runTool_cases _ _,
    runTool_cases _ _⟩

/-- C10: passing an explicitly absent (None or empty) start_date or
end_date to kpi_anomalies disables that bound of the date-range filter
entirely, for the anomaly rows and for the baseline measurement rows alike;
the documented 2024-01-01..2024-02-29 window is only the Python default
argument value (day numbers 0 and 59 counted from 2024-01-01). -/
theorem c10_omitted_bounds_disable_date_filter
    (ens : ATable) (base : MTable) (kpi : String) (siteId sectorId : Option String)
    (sa ea : DateArg) :
    anomFilteredRows kpi siteId sectorId .omitted .omitted ens =
      anomRowsEntityOnly kpi siteId sectorId ens
  ∧ baseFilteredRows kpi siteId sectorId .omitted .omitted base =
      baseRowsEntityOnly kpi siteId sectorId base
  ∧ anomFilteredRows kpi siteId sectorId .omitted ea ens =
      coerceLeFilter (·.date) ea (anomRowsEntityOnly kpi siteId sectorId ens)
  ∧ anomFilteredRows kpi siteId sectorId sa .omitted ens =
      coerceGeFilter (·.date) sa (anomRowsEntityOnly kpi siteId sectorId ens)
  ∧ baseFilteredRows kpi siteId sectorId .omitted ea base =
      coerceLeFilter (·.date) ea (baseRowsEntityOnly kpi siteId sectorId base)
  ∧ baseFilteredRows kpi siteId sectorId sa .omitted base =
      coerceGeFilter (·.date) sa (baseRowsEntityOnly kpi siteId sectorId base)
  ∧ kpiAnomaliesDefault kpi siteId sectorId ens base =
      kpi_anomalies kpi siteId sectorId (.valid 0) (.valid 59) ens base :=
  ⟨rfl, rfl, rfl, rfl, rfl, rfl, rfl⟩

/-- C2 evaluation: on the failing input (a KPI name outside the static
group mapping, with anomaly rows and baseline rows both present), the
fault raised inside the co-occurrence step (the unbound `Kpis` variable of
tools.py line 405) reaches the single top-level handler and replaces the
ENTIRE report with an error string, even though the anomaly count, values
and baseline of the earlier steps were all computable. -/
theorem c2_cooccurrence_fault_aborts_whole_report :
    kpi_anomalies "Foo" none none .omitted .omitted wEns2 wTbl =
      "Error analyzing KPI anomalies: name Kpis is not defined"
  ∧ (anomFilteredRows "Foo" none none .omitted .omitted wEns2).length = 2
  ∧ anomalyValuesOf "Foo" none none .omitted .omitted wEns2 = [9, 10]
  ∧ (baseFilteredRows "Foo" none none .omitted .omitted wTbl).length = 3 :=
  ⟨rfl, rfl, by decide, rfl⟩

/-- risingBoth_length_le: the rows rising in both KPIs are a sub-filter of
the rows rising in the first. -/
theorem risingBoth_length_le (diffs : List (ℚ × ℚ)) :
    (risingBoth diffs).length ≤ (risingX diffs).length :=
  List.length_filter_le _ _

/-- C5: the directional conditional probability of compare_kpi_impact is
always within [0, 1]; when no consecutive difference has ΔX > 0 it is
exactly 0, the directional comment is the no-positive-changes message, and
the successful report carries that message (no division fault occurs). -/
theorem c5_directional_fraction_in_unit_interval
    (diffs : List (ℚ × ℚ)) (x y : String) (siteId : Option String) :
    (0 ≤ dirFraction diffs ∧ dirFraction diffs ≤ 1)
  ∧ (risingX diffs = [] →
      dirFraction diffs = 0 ∧ dirCommentOf diffs x y siteId = noPosMsg x y)
  ∧ (∀ (gr : List (ℚ × ℚ) → Except String (ℚ × ℚ)) (t : MTable) (sa ea : DateArg)
      (rs : List MRow) (p1 p2 : ℚ),
      x ∈ t.cols ∧ y ∈ t.cols →
      comparePipeline t x y siteId sa ea = .ok rs →
      rs.isEmpty = false →
      gr (grangerInput rs x y) = .ok (p1, p2) →
      risingX (diffsOf rs x y) = [] →
      compareBody gr t x y siteId sa ea =
        .ok (noPosMsg x y ++ "\n\n" ++ grangerCommentOf x y (bestPValue p1 p2) ++
          answerNote)) := by
  refine ⟨?_, ?_, ?_⟩
  · by_cases h : (risingX diffs).length = 0
    · simp [dirFraction, h]
    · have hpos : (0 : ℚ) < ((risingX diffs).length : ℚ) := by
        exact_mod_cast Nat.pos_of_ne_zero h
      constructor
      · simp only [dirFraction, if_neg h]
        positivity
      · simp only [dirFraction, if_neg h]
        rw [div_le_one hpos]
        exact_mod_cast risingBoth_length_le diffs
  · intro hempty
    have hlen : (risingX diffs).length = 0 := by rw [hempty]; rfl
    exact ⟨by simp [dirFraction, hlen], by simp [dirCommentOf, hlen]⟩
  · intro gr t sa ea rs p1 p2 hc hp hne hg hrise
    have hlen : (risingX (diffsOf rs x y)).length = 0 := by rw [hrise]; rfl
    simp only [compareBody, if_pos hc, hp, hne, Bool.false_eq_true, if_false, hg]
    simp [dirCommentOf, hlen]

/-- c5 witness at a concrete input: the one-row fixture has no positive ΔX,
and the report opens with the no-positive-changes message. -/
theorem c5_witness :
    compareBody grW wTblOne "SINR" "RSRP" none .omitted .omitted =
      .ok (noPosMsg "SINR" "RSRP" ++ "\n\n" ++
        grangerCommentOf "SINR" "RSRP" (bestPValue (1/100) (1/10)) ++ answerNote) :=
  (c5_directional_fraction_in_unit_interval
      (diffsOf (sortByDate (compareBaseRows wTblOne "SINR" "RSRP" none)) "SINR" "RSRP")
      "SINR" "RSRP" none).2.2 grW wTblOne .omitted .omitted
    (sortByDate (compareBaseRows wTblOne "SINR" "RSRP" none)) (1/100) (1/10)
    ⟨by decide, by decide⟩ rfl rfl rfl rfl

/-- C4: the causality section of compare_kpi_impact passes the aligned
columns response-first (kpi_y then kpi_x) to the Granger test, reports the
minimum of the ssr F-test p-values over lags 1 and 2, and asserts that
kpi_x helps predict kpi_y exactly when that minimum is below 0.05 (else the
no-statistical-evidence sentence). -/
theorem c4_granger_min_pvalue_and_threshold
    (gr : List (ℚ × ℚ) → Except String (ℚ × ℚ)) (t : MTable) (x y : String)
    (siteId : Option String) (sa ea : DateArg) (rs : List MRow) (p1 p2 : ℚ)
    (hc : x ∈ t.cols ∧ y ∈ t.cols)
    (hp : comparePipeline t x y siteId sa ea = .ok rs)
    (hne : rs.isEmpty = false)
    (hg : gr (grangerInput rs x y) = .ok (p1, p2)) :
    compareBody gr t x y siteId sa ea =
      .ok (dirCommentOf (diffsOf rs x y) x y siteId ++ "\n\n" ++
        grangerCommentOf x y (min p1 p2) ++ answerNote)
  ∧ grangerInput rs x y = rs.map (fun r => ((r.val y).getD 0, (r.val x).getD 0))
  ∧ bestPValue p1 p2 = min p1 p2
  ∧ (min p1 p2 < (1 : ℚ) / 20 →
      grangerCommentOf x y (min p1 p2) =
        grangerHead x y (min p1 p2) ++ predictText x y)
  ∧ (¬ min p1 p2 < (1 : ℚ) / 20 →
      grangerCommentOf x y (min p1 p2) =
        grangerHead x y (min p1 p2) ++ noEvidenceText x y) := by
  refine ⟨?_, rfl, rfl, ?_, ?_⟩
  · simp only [compareBody, if_pos hc, hp, hne, Bool.false_eq_true, if_false, hg, bestPValue]
  · intro h; unfold grangerCommentOf; rw [if_pos h]
  · intro h; unfold grangerCommentOf; rw [if_neg h]

/-- c4 witness at a concrete input with p-values 1/100 and 1/10: the
minimum 1/100 is reported and lies below the 0.05 threshold. -/
theorem c4_witness :
    compareBody grW wTbl "SINR" "RSRP" none .omitted .omitted =
      .ok (dirCommentOf
          (diffsOf (sortByDate (compareBaseRows wTbl "SINR" "RSRP" none)) "SINR" "RSRP")
          "SINR" "RSRP" none ++ "\n\n" ++
        grangerCommentOf "SINR" "RSRP" (min (1/100) (1/10)) ++ answerNote) :=
  (c4_granger_min_pvalue_and_threshold grW wTbl "SINR" "RSRP" none .omitted .omitted
    (sortByDate (compareBaseRows wTbl "SINR" "RSRP" none)) (1/100) (1/10)
    ⟨by decide, by decide⟩ rfl rfl rfl).1

/-- mul_length_lt_sum: a list of values each strictly above c has sum
strictly above c times its length (nonempty case). -/
theorem mul_length_lt_sum (c : ℚ) :
    ∀ xs : List ℚ, xs ≠ [] → (∀ x ∈ xs, c < x) → c * (xs.length : ℚ) < xs.sum := by
  intro xs
  induction xs with
  | nil => intro h; exact absurd rfl h
  | cons a l ih =>
      intro _ hall
      have h2 : c < a := hall a (List.mem_cons_self a l)
      by_cases hl : l = []
      · subst hl; simpa using h2
      · have h1 := ih hl (fun x hx => hall x (List.mem_cons_of_mem a hx))
        have hexp : c * ((l.length : ℚ) + 1) = c * (l.length : ℚ) + c := by ring
        simp only [List.sum_cons, List.length_cons, Nat.cast_succ]
        rw [hexp]
        linarith

/-- sum_le_mul_length: a list of values each at most c has sum at most c
times its length. -/
theorem sum_le_mul_length (c : ℚ) :
    ∀ xs : List ℚ, (∀ x ∈ xs, x ≤ c) → xs.sum ≤ c * (xs.length : ℚ) := by
  intro xs
  induction xs with
  | nil => intro _; simp
  | cons a l ih =>
      intro hall
      have h2 : a ≤ c := hall a (List.mem_cons_self a l)
      have h1 := ih (fun x hx => hall x (List.mem_cons_of_mem a hx))
      have hexp : c * ((l.length : ℚ) + 1) = c * (l.length : ℚ) + c := by ring
      simp only [List.sum_cons, List.length_cons, Nat.cast_succ]
      rw [hexp]
      linarith

/-- lt_meanQ_of_forall_lt: the mean of a nonempty list of values each
strictly above c is strictly above c. -/
theorem lt_meanQ_of_forall_lt (c : ℚ) (xs : List ℚ) (hne : xs ≠ [])
    (h : ∀ x ∈ xs, c < x) : c < meanQ xs := by
  have hlen : (0 : ℚ) < (xs.length : ℚ) := by
    exact_mod_cast List.length_pos.mpr hne
  rw [meanQ, lt_div_iff₀ hlen]
  exact mul_length_lt_sum c xs hne h

/-- meanQ_le_of_forall_le: the mean of a nonempty list of values each at
most c is at most c. -/
theorem meanQ_le_of_forall_le (c : ℚ) (xs : List ℚ) (hne : xs ≠ [])
    (h : ∀ x ∈ xs, x ≤ c) : meanQ xs ≤ c := by
  have hlen : (0 : ℚ) < (xs.length : ℚ) := by
    exact_mod_cast List.length_pos.mpr hne
  rw [meanQ, div_le_iff₀ hlen]
  exact sum_le_mul_length c xs h

/-- C7: whenever both anomaly partitions of kpi_anomalies are non-empty,
the mean of the above-baseline partition is strictly greater than the
baseline, and the baseline is at least the mean of the at-or-below
partition. -/
theorem c7_partition_means_bracket_baseline
    (kpi : String) (siteId sectorId : Option String) (sa ea : DateArg)
    (ens : ATable) (base : MTable)
    (ha : aboveOf kpi siteId sectorId sa ea ens base ≠ [])
    (hb : belowOf kpi siteId sectorId sa ea ens base ≠ []) :
    baselineOf kpi siteId sectorId sa ea base <
      meanQ (aboveOf kpi siteId sectorId sa ea ens base)
  ∧ meanQ (belowOf kpi siteId sectorId sa ea ens base) ≤
      baselineOf kpi siteId sectorId sa ea base := by
  constructor
  · apply lt_meanQ_of_forall_lt _ _ ha
    intro x hx
    have := List.of_mem_filter hx
    exact of_decide_eq_true this
  · apply meanQ_le_of_forall_le _ _ hb
    intro x hx
    have := List.of_mem_filter hx
    exact of_decide_eq_true this

/-- c7 witness at a concrete input: baseline 5, one anomaly above (20) and
one below (1). -/
theorem c7_witness :
    baselineOf "SINR" none none .omitted .omitted wTbl7 <
      meanQ (aboveOf "SINR" none none .omitted .omitted wEns7 wTbl7)
  ∧ meanQ (belowOf "SINR" none none .omitted .omitted wEns7 wTbl7) ≤
      baselineOf "SINR" none none .omitted .omitted wTbl7 := by
  have hbase : baselineOf "SINR" none none .omitted .omitted wTbl7 = 5 := by
    have h0 : baselineOf "SINR" none none .omitted .omitted wTbl7 = meanQ [5] := rfl
    rw [h0]
    norm_num [meanQ]
  have hvals : anomalyValuesOf "SINR" none none .omitted .omitted wEns7 = [20, 1] := rfl
  have hab : aboveOf "SINR" none none .omitted .omitted wEns7 wTbl7 ≠ [] := by
    unfold aboveOf
    rw [hvals]
    simp only [hbase, List.filter]
    norm_num
  have hbe : belowOf "SINR" none none .omitted .omitted wEns7 wTbl7 ≠ [] := by
    unfold belowOf
    rw [hvals]
    simp only [hbase, List.filter]
    norm_num
  exact c7_partition_means_bracket_baseline "SINR" none none .omitted .omitted wEns7 wTbl7
    hab hbe

/-- pickMax_cons unfolds one fold step of `idxmax`. -/
theorem pickMax_cons (p a : String × ℚ) (l : List (String × ℚ)) :
    pickMax p (a :: l) = pickMax (if p.2 < a.2 then a else p) l := rfl

/-- pickMin_cons unfolds one fold step of `idxmin`. -/
theorem pickMin_cons (p a : String × ℚ) (l : List (String × ℚ)) :
    pickMin p (a :: l) = pickMin (if a.2 < p.2 then a else p) l := rfl

/-- pickMax_mem: the pair selected by `idxmax` is one of the candidates. -/
theorem pickMax_mem : ∀ (l : List (String × ℚ)) (p), pickMax p l ∈ p :: l := by
  intro l
  induction l with
  | nil => intro p; simp [pickMax]
  | cons a l ih =>
      intro p
      rw [pickMax_cons]
      by_cases h : p.2 < a.2
      · rw [if_pos h]
        exact List.mem_cons_of_mem p (ih a)
      · rw [if_neg h]
        rcases List.mem_cons.mp (ih p) with h1 | h1
        · rw [h1]; exact List.mem_cons_self p (a :: l)
        · exact List.mem_cons_of_mem p (List.mem_cons_of_mem a h1)

/-- pickMin_mem: the pair selected by `idxmin` is one of the candidates. -/
theorem pickMin_mem : ∀ (l : List (String × ℚ)) (p), pickMin p l ∈ p :: l := by
  intro l
  induction l with
  | nil => intro p; simp [pickMin]
  | cons a l ih =>
      intro p
      rw [pickMin_cons]
      by_cases h : a.2 < p.2
      · rw [if_pos h]
        exact List.mem_cons_of_mem p (ih a)
      · rw [if_neg h]
        rcases List.mem_cons.mp (ih p) with h1 | h1
        · rw [h1]; exact List.mem_cons_self p (a :: l)
        · exact List.mem_cons_of_mem p (List.mem_cons_of_mem a h1)

/-- pickMax_ge: every candidate value is at most the `idxmax` value. -/
theorem pickMax_ge : ∀ (l : List (String × ℚ)) (p q), q ∈ p :: l → q.2 ≤ (pickMax p l).2 := by
  intro l
  induction l with
  | nil =>
      intro p q hq
      rcases List.mem_cons.mp hq with h1 | h1
      · rw [h1]; exact le_refl _
      · exact absurd h1 (List.not_mem_nil q)
  | cons a l ih =>
      intro p q hq
      rw [pickMax_cons]
      by_cases h : p.2 < a.2
      · rw [if_pos h]
        rcases List.mem_cons.mp hq with h1 | h1
        · rw [h1]
          exact le_trans (le_of_lt h) (ih a a (List.mem_cons_self a l))
        · rcases List.mem_cons.mp h1 with h2 | h2
          · rw [h2]; exact ih a a (List.mem_cons_self a l)
          · exact ih a q (List.mem_cons_of_mem a h2)
      · rw [if_neg h]
        rcases List.mem_cons.mp hq with h1 | h1
        · rw [h1]; exact ih p p (List.mem_cons_self p l)
        · rcases List.mem_cons.mp h1 with h2 | h2
          · rw [h2]; exact le_trans (le_of_not_lt h) (ih p p (List.mem_cons_self p l))
          · exact ih p q (List.mem_cons_of_mem p h2)

/-- pickMin_le: the `idxmin` value is at most every candidate value. -/
theorem pickMin_le : ∀ (l : List (String × ℚ)) (p q), q ∈ p :: l → (pickMin p l).2 ≤ q.2 := by
  intro l
  induction l with
  | nil =>
      intro p q hq
      rcases List.mem_cons.mp hq with h1 | h1
      · rw [h1]; exact le_refl _
      · exact absurd h1 (List.not_mem_nil q)
  | cons a l ih =>
      intro p q hq
      rw [pickMin_cons]
      by_cases h : a.2 < p.2
      · rw [if_pos h]
        rcases List.mem_cons.mp hq with h1 | h1
        · rw [h1]
          exact le_trans (ih a a (List.mem_cons_self a l)) (le_of_lt h)
        · rcases List.mem_cons.mp h1 with h2 | h2
          · rw [h2]; exact ih a a (List.mem_cons_self a l)
          · exact ih a q (List.mem_cons_of_mem a h2)
      · rw [if_neg h]
        rcases List.mem_cons.mp hq with h1 | h1
        · rw [h1]; exact ih p p (List.mem_cons_self p l)
        · rcases List.mem_cons.mp h1 with h2 | h2
          · rw [h2]; exact le_trans (ih p p (List.mem_cons_self p l)) (le_of_not_lt h)
          · exact ih p q (List.mem_cons_of_mem p h2)

/-- eq_of_mem_of_nodup_keys: in an association list with distinct keys, two
members with the same key are the same pair. -/
theorem eq_of_mem_of_nodup_keys :
    ∀ (l : List (String × ℚ)), (l.map Prod.fst).Nodup →
      ∀ p q : String × ℚ, p ∈ l → q ∈ l → p.1 = q.1 → p = q := by
  intro l
  induction l with
  | nil => intro _ p q hp; exact absurd hp (List.not_mem_nil p)
  | cons a l ih =>
      intro hnd p q hp hq hfst
      have hnd1 : a.1 ∉ l.map Prod.fst := (List.nodup_cons.mp hnd).1
      have hnd2 : (l.map Prod.fst).Nodup := (List.nodup_cons.mp hnd).2
      rcases List.mem_cons.mp hp with rfl | h1
      · rcases List.mem_cons.mp hq with rfl | h2
        · rfl
        · exfalso
          apply hnd1
          rw [hfst]
          exact List.mem_map_of_mem Prod.fst h2
      · rcases List.mem_cons.mp hq with rfl | h2
        · exfalso
          apply hnd1
          rw [← hfst]
          exact List.mem_map_of_mem Prod.fst h1
        · exact ih hnd2 p q h1 h2 hfst

/-- siteAverages_keys_nodup: the grouped site averages carry pairwise
distinct site keys. -/
theorem siteAverages_keys_nodup (rs : List MRow) (kpi : String) :
    ((siteAverages rs kpi).map Prod.fst).Nodup := by
  have h1 : (uniqueSites rs).Nodup := by
    have hperm := List.perm_insertionSort (fun a b : String => a.data ≤ b.data)
      ((rs.filterMap (·.site)).dedup)
    exact hperm.symm.nodup ((rs.filterMap (·.site)).nodup_dedup)
  unfold siteAverages
  rw [List.map_map]
  have hcomp : (Prod.fst ∘ fun s : String =>
      (s, meanQ ((rs.filter (fun r => decide (r.site = some s))).filterMap
        (fun r => r.val kpi)))) = fun s : String => s := rfl
  rw [hcomp, List.map_id']
  exact h1

/-- C6: on the per-site averages of get_site_kpi_extreme, the
extreme_type=highest and extreme_type=lowest selections name the same site
only when every site average is equal; whenever two site averages differ,
the two selections name different sites. -/
theorem c6_highest_lowest_site_coincide_only_on_ties
    (rs : List MRow) (kpi : String) (h : siteAverages rs kpi ≠ []) :
    ((extremePick (siteAverages rs kpi) "highest").map Prod.fst =
        (extremePick (siteAverages rs kpi) "lowest").map Prod.fst →
      ∀ p ∈ siteAverages rs kpi, ∀ q ∈ siteAverages rs kpi, p.2 = q.2)
  ∧ ((∃ p ∈ siteAverages rs kpi, ∃ q ∈ siteAverages rs kpi, p.2 ≠ q.2) →
      (extremePick (siteAverages rs kpi) "highest").map Prod.fst ≠
        (extremePick (siteAverages rs kpi) "lowest").map Prod.fst) := by
  have hhi : extremePick (siteAverages rs kpi) "highest" =
      argmaxPair (siteAverages rs kpi) := by
    unfold extremePick; rw [if_neg (by decide)]
  have hlo : extremePick (siteAverages rs kpi) "lowest" =
      argminPair (siteAverages rs kpi) := by
    unfold extremePick; rw [if_pos (by decide)]
  obtain ⟨p0, ps, hcons⟩ : ∃ p0 ps, siteAverages rs kpi = p0 :: ps := by
    cases hl : siteAverages rs kpi with
    | nil => exact absurd hl h
    | cons a l => exact ⟨a, l, rfl⟩
  have hmax : argmaxPair (siteAverages rs kpi) = some (pickMax p0 ps) := by
    rw [hcons]; rfl
  have hmin : argminPair (siteAverages rs kpi) = some (pickMin p0 ps) := by
    rw [hcons]; rfl
  have hMmem : pickMax p0 ps ∈ siteAverages rs kpi := by
    rw [hcons]; exact pickMax_mem ps p0
  have hmmem : pickMin p0 ps ∈ siteAverages rs kpi := by
    rw [hcons]; exact pickMin_mem ps p0
  have hpart1 : (extremePick (siteAverages rs kpi) "highest").map Prod.fst =
      (extremePick (siteAverages rs kpi) "lowest").map Prod.fst →
      ∀ p ∈ siteAverages rs kpi, ∀ q ∈ siteAverages rs kpi, p.2 = q.2 := by
    intro heq p hp q hq
    rw [hhi, hlo, hmax, hmin] at heq
    have hfst : (pickMax p0 ps).1 = (pickMin p0 ps).1 := by
      simpa using heq
    have hMm : pickMax p0 ps = pickMin p0 ps :=
      eq_of_mem_of_nodup_keys (siteAverages rs kpi) (siteAverages_keys_nodup rs kpi)
        _ _ hMmem hmmem hfst
    have hvals : ∀ r ∈ siteAverages rs kpi, r.2 = (pickMax p0 ps).2 := by
      intro r hr
      have hub : r.2 ≤ (pickMax p0 ps).2 := by
        apply pickMax_ge ps p0 r
        rw [← hcons]; exact hr
      have hlb : (pickMin p0 ps).2 ≤ r.2 := by
        apply pickMin_le ps p0 r
        rw [← hcons]; exact hr
      rw [hMm] at hub ⊢
      exact le_antisymm hub hlb
    rw [hvals p hp, hvals q hq]
  refine ⟨hpart1, ?_⟩
  rintro ⟨p, hp, q, hq, hne⟩ heq
  exact hne (hpart1 heq p hp q hq)

/-- c6 witness at a concrete input: on the two-site fixture with averages 5
and 7, the highest and lowest selections name different sites. -/
theorem c6_witness :
    (extremePick (siteAverages wTbl6.rows "SINR") "highest").map Prod.fst ≠
      (extremePick (siteAverages wTbl6.rows "SINR") "lowest").map Prod.fst := by
  have hA : siteAverages wTbl6.rows "SINR" =
      [("SITE_001", meanQ [5]), ("SITE_002", meanQ [7])] := rfl
  apply (c6_highest_lowest_site_coincide_only_on_ties wTbl6.rows "SINR"
    (by rw [hA]; exact List.cons_ne_nil _ _)).2
  refine ⟨("SITE_001", meanQ [5]), by rw [hA]; exact List.mem_cons_self _ _,
    ("SITE_002", meanQ [7]), by rw [hA]; exact List.mem_cons_of_mem _ (List.mem_cons_self _ _), ?_⟩
  show meanQ [5] ≠ meanQ [7]
  norm_num [meanQ]

/-- cooccurCountSrc_eq_spec: the source-order count (restrict to same days,
then select the related KPI) equals the spec-worded count over the DISTINCT
main-anomaly dates, since date membership ignores multiplicity. -/
theorem cooccurCountSrc_eq_spec (kpi : String) (siteId sectorId : Option String)
    (sa ea : DateArg) (ens : ATable) (rkpi : String) :
    cooccurCountSrc kpi siteId sectorId sa ea ens rkpi =
      cooccurCountSpec kpi siteId sectorId sa ea ens rkpi := by
  unfold cooccurCountSrc cooccurCountSpec sameDayRows
  rw [List.filter_filter]
  congr 1
  apply List.filter_congr
  intro r _
  simp [List.mem_dedup, Bool.and_comm]

/-- C3: the co-occurrence section of kpi_anomalies reports exactly the
same-group KPIs other than kpi_name whose anomaly rows — from the table
filtered only by entity and restricted to the distinct dates of the
filtered main-KPI anomalies — number at least one, each with that count. -/
theorem c3_cooccurrence_reports_exactly_same_group_positive_counts
    (ens : ATable) (kpi : String) (siteId sectorId : Option String) (sa ea : DateArg)
    (g : String) (kpis : List String) (k : String) (c : Nat)
    (_hg : groupLookup kpi = some (g, kpis)) :
    (k, c) ∈ relatedCountsOf kpi siteId sectorId sa ea ens kpis ↔
      (k ∈ kpis ∧ k ≠ kpi ∧ c = cooccurCountSpec kpi siteId sectorId sa ea ens k ∧
        1 ≤ c) := by
  constructor
  · intro hmem
    have h1 := List.mem_filter.mp hmem
    obtain ⟨a, ha, heq⟩ := List.mem_map.mp h1.1
    have ha2 := List.mem_filter.mp ha
    have hane : a ≠ kpi := of_decide_eq_true ha2.2
    have hak : a = k := congrArg Prod.fst heq
    have hcnt : cooccurCountSrc kpi siteId sectorId sa ea ens a = c :=
      congrArg Prod.snd heq
    subst hak
    refine ⟨ha2.1, hane, ?_, ?_⟩
    · rw [← hcnt, cooccurCountSrc_eq_spec]
    · have h2 : 0 < c := by simpa using of_decide_eq_true h1.2
      omega
  · rintro ⟨hk, hne, rfl, hc⟩
    apply List.mem_filter.mpr
    refine ⟨?_, ?_⟩
    · apply List.mem_map.mpr
      refine ⟨k, List.mem_filter.mpr ⟨hk, decide_eq_true hne⟩, ?_⟩
      rw [cooccurCountSrc_eq_spec]
    · apply decide_eq_true
      show 0 < cooccurCountSpec kpi siteId sectorId sa ea ens k
      exact hc

/-- c3 witness at a concrete input: in the signal group, RSRP co-occurs
once with the SINR anomalies of the fixture. -/
theorem c3_witness :
    ("RSRP", 1) ∈ relatedCountsOf "SINR" none none .omitted .omitted wEns
        ["RSRP", "SINR"] ↔
      ("RSRP" ∈ ["RSRP", "SINR"] ∧ "RSRP" ≠ "SINR" ∧
        1 = cooccurCountSpec "SINR" none none .omitted .omitted wEns "RSRP" ∧
        1 ≤ 1) :=
  c3_cooccurrence_reports_exactly_same_group_positive_counts wEns "SINR" none none
    .omitted .omitted "signal" ["RSRP", "SINR"] "RSRP" 1 (by decide)

/-- listIsEmpty_false_of_ne_nil: a non-nil list has isEmpty false. -/
theorem listIsEmpty_false_of_ne_nil {α : Type} {l : List α} (h : l ≠ []) :
    l.isEmpty = false := by
  cases l with
  | nil => exact absurd rfl h
  | cons a l => rfl

/-- C8: with a valid KPI column, get_peak_kpi_day_for_site reaches the
NotFound branch exactly when the site has no usable rows at all (before any
date filtering), reaches the EmptyResult branch exactly when the site has
rows but the window leaves none, defaults the window to
[site max date - 30 days, site max date] when both date arguments are
omitted, and the public tool is the rendered outcome under the top-level
handler. -/
theorem c8_peak_notfound_emptywindow_and_default_window
    (t : MTable) (siteId kpi extremeType : String) (sa ea : DateArg)
    (hc : kpi ∈ t.cols) :
    (peakOutcome t siteId kpi extremeType sa ea = .notFound siteId ↔
      siteRowsOf t kpi siteId = [])
  ∧ ((∃ a b, peakOutcome t siteId kpi extremeType sa ea = .emptyWindow siteId a b) ↔
      (siteRowsOf t kpi siteId ≠ [] ∧ peakWindowRows t kpi siteId sa ea = []))
  ∧ peakWindowBounds (siteRowsOf t kpi siteId) .omitted .omitted =
      ((maxDateOf ((siteRowsOf t kpi siteId).map (·.date))).map (· - 30),
        maxDateOf ((siteRowsOf t kpi siteId).map (·.date)))
  ∧ get_peak_kpi_day_for_site t siteId kpi extremeType sa ea =
      runTool "Error processing request: "
        (renderPeak (peakOutcome t siteId kpi extremeType sa ea)) := by
  refine ⟨?_, ?_, rfl, rfl⟩
  · by_cases hdf : siteRowsOf t kpi siteId = []
    · have hout : peakOutcome t siteId kpi extremeType sa ea = .notFound siteId := by
        simp [peakOutcome, if_pos hc, hdf]
      rw [hout]
      exact ⟨fun _ => hdf, fun _ => rfl⟩
    · have hne := listIsEmpty_false_of_ne_nil hdf
      cases hw : peakWindowRows t kpi siteId sa ea with
      | nil =>
          have hout : peakOutcome t siteId kpi extremeType sa ea =
              .emptyWindow siteId (peakWindowBounds (siteRowsOf t kpi siteId) sa ea).1
                (peakWindowBounds (siteRowsOf t kpi siteId) sa ea).2 := by
            simp [peakOutcome, if_pos hc, hne, hw]
          rw [hout]
          constructor
          · intro h; simp at h
          · intro h; exact absurd h hdf
      | cons r rs =>
          have hout : peakOutcome t siteId kpi extremeType sa ea =
              .found siteId kpi (extremeLabel extremeType)
                (if strLower extremeType = "lowest" then rowPickMin kpi r rs
                  else rowPickMax kpi r rs).date
                ((if strLower extremeType = "lowest" then rowPickMin kpi r rs
                  else rowPickMax kpi r rs).val kpi)
                (peakWindowBounds (siteRowsOf t kpi siteId) sa ea).1
                (peakWindowBounds (siteRowsOf t kpi siteId) sa ea).2 := by
            simp [peakOutcome, if_pos hc, hne, hw, apply_ite]
          rw [hout]
          constructor
          · intro h; simp at h
          · intro h; exact absurd h hdf
  · by_cases hdf : siteRowsOf t kpi siteId = []
    · have hout : peakOutcome t siteId kpi extremeType sa ea = .notFound siteId := by
        simp [peakOutcome, if_pos hc, hdf]
      rw [hout]
      constructor
      · rintro ⟨a, b, hab⟩; simp at hab
      · rintro ⟨h1, _⟩; exact absurd hdf h1
    · have hne := listIsEmpty_false_of_ne_nil hdf
      cases hw : peakWindowRows t kpi siteId sa ea with
      | nil =>
          have hout : peakOutcome t siteId kpi extremeType sa ea =
              .emptyWindow siteId (peakWindowBounds (siteRowsOf t kpi siteId) sa ea).1
                (peakWindowBounds (siteRowsOf t kpi siteId) sa ea).2 := by
            simp [peakOutcome, if_pos hc, hne, hw]
          rw [hout]
          constructor
          · intro _; exact ⟨hdf, rfl⟩
          · intro _; exact ⟨_, _, rfl⟩
      | cons r rs =>
          have hout : peakOutcome t siteId kpi extremeType sa ea =
              .found siteId kpi (extremeLabel extremeType)
                (if strLower extremeType = "lowest" then rowPickMin kpi r rs
                  else rowPickMax kpi r rs).date
                ((if strLower extremeType = "lowest" then rowPickMin kpi r rs
                  else rowPickMax kpi r rs).val kpi)
                (peakWindowBounds (siteRowsOf t kpi siteId) sa ea).1
                (peakWindowBounds (siteRowsOf t kpi siteId) sa ea).2 := by
            simp [peakOutcome, if_pos hc, hne, hw, apply_ite]
          rw [hout]
          constructor
          · rintro ⟨a, b, hab⟩; simp at hab
          · rintro ⟨_, h2⟩
            exact absurd h2 (List.cons_ne_nil r rs)

/-- c8 witness at a concrete input: an unknown site has no rows, so the
outcome is NotFound. -/
theorem c8_witness :
    peakOutcome wTbl "SITE_009" "SINR" "highest" .omitted .omitted =
      .notFound "SITE_009" :=
  (c8_peak_notfound_emptywindow_and_default_window wTbl "SITE_009" "SINR" "highest"
    .omitted .omitted (by decide)).1.mpr rfl

/-- dateLE_none_left: a `NaT` lower operand makes the comparison `False`. -/
theorem dateLE_none_left (b : Option Int) : dateLE none b = false := by
  cases b <;> rfl

/-- dateLE_none_right: a `NaT` upper operand makes the comparison
`False`. -/
theorem dateLE_none_right (a : Option Int) : dateLE a none = false := by
  cases a <;> rfl

/-- inWindow_none_left: a `NaT` start bound empties the window. -/
theorem inWindow_none_left (e d : Option Int) : inWindow none e d = false := by
  unfold inWindow
  rw [dateLE_none_left]
  rfl

/-- inWindow_none_right: a `NaT` end bound empties the window. -/
theorem inWindow_none_right (s d : Option Int) : inWindow s none d = false := by
  unfold inWindow
  rw [dateLE_none_right]
  exact Bool.and_false _

/-- coerceGeFilter_invalid: the tolerant start filter with an unparsable
argument compares every row against `NaT` and keeps none. -/
theorem coerceGeFilter_invalid {α : Type} (f : α → Option Int) (rs : List α) :
    coerceGeFilter f .invalid rs = [] := by
  simp [coerceGeFilter]

/-- coerceLeFilter_invalid: the tolerant end filter with an unparsable
argument keeps no row. -/
theorem coerceLeFilter_invalid {α : Type} (f : α → Option Int) (rs : List α) :
    coerceLeFilter f .invalid rs = [] := by
  simp [coerceLeFilter]

/-- coerceLeFilter_nil: the tolerant end filter of an empty row list is
empty. -/
theorem coerceLeFilter_nil {α : Type} (f : α → Option Int) (a : DateArg) :
    coerceLeFilter f a ([] : List α) = [] := by
  cases a <;> rfl

/-- C9 counterexample: compare_kpi_impact does NOT treat an unparsable date
as absent — its strict `pd.to_datetime` raises, and the call returns the
error-text report instead of a normal report, refuting the claim for that
public operation at this concrete input. -/
theorem c9_counterexample_compare_unparsable_date_error_report :
    compare_kpi_impact grW wTbl "SINR" "RSRP" none .invalid .omitted =
      "Error evaluating directional KPI impact: Unknown datetime string format" := rfl

/-- C9 amended: the tolerant operations (kpi_anomalies,
get_site_kpi_extreme, get_peak_kpi_day_for_site) coerce an unparsable date
to a null that excludes rows from the range filter and still return a
normal (non-error) report, while compare_kpi_impact parses dates strictly
and an unparsable date makes its body raise, yielding the error report. -/
theorem c9_amended_unparsable_dates_tolerant_except_compare
    (ens : ATable) (base t : MTable) (gr : List (ℚ × ℚ) → Except String (ℚ × ℚ))
    (kpi extremeType siteStr x y : String) (siteId sectorId : Option String)
    (da : DateArg) :
    (anomBody kpi siteId sectorId .invalid da ens base =
      .ok ("No anomaly data found for `" ++ kpi ++ "` with given filters."))
  ∧ (anomBody kpi siteId sectorId da .invalid ens base =
      .ok ("No anomaly data found for `" ++ kpi ++ "` with given filters."))
  ∧ (kpi ∈ t.cols → ∃ s, siteExtremeBody t kpi extremeType .invalid da = .ok s)
  ∧ (kpi ∈ t.cols → ∃ s, siteExtremeBody t kpi extremeType da .invalid = .ok s)
  ∧ (kpi ∈ t.cols → ∃ s,
      renderPeak (peakOutcome t siteStr kpi extremeType .invalid da) = .ok s)
  ∧ (kpi ∈ t.cols → ∃ s,
      renderPeak (peakOutcome t siteStr kpi extremeType da .invalid) = .ok s)
  ∧ (x ∈ t.cols ∧ y ∈ t.cols → ∃ e, compareBody gr t x y siteId .invalid da = .error e)
  ∧ (x ∈ t.cols ∧ y ∈ t.cols →
      ∃ e, compareBody gr t x y siteId da .invalid = .error e) := by
  refine ⟨?_, ?_, ?_, ?_, ?_, ?_, ?_, ?_⟩
  · have hdf : anomFilteredRows kpi siteId sectorId .invalid da ens = [] := by
      unfold anomFilteredRows
      rw [coerceGeFilter_invalid, coerceLeFilter_nil]
    simp [anomBody, hdf]
  · have hdf : anomFilteredRows kpi siteId sectorId da .invalid ens = [] := by
      unfold anomFilteredRows
      rw [coerceLeFilter_invalid]
    simp [anomBody, hdf]
  · intro hc
    have hf : (usableRows t kpi).filter
        (fun r => inWindow (resolveStartExtreme (resolveEndExtreme (usableRows t kpi) da)
          .invalid) (resolveEndExtreme (usableRows t kpi) da) r.date) = [] := by
      have : ∀ r ∈ usableRows t kpi,
          inWindow none (resolveEndExtreme (usableRows t kpi) da) r.date = false :=
        fun r _ => inWindow_none_left _ _
      simp only [resolveStartExtreme]
      exact List.filter_eq_nil_iff.mpr (by simpa using this)
    exact ⟨_, by simp [siteExtremeBody, if_pos hc, hf]; rfl⟩
  · intro hc
    have hf : (usableRows t kpi).filter
        (fun r => inWindow (resolveStartExtreme (resolveEndExtreme (usableRows t kpi)
          .invalid) da) (resolveEndExtreme (usableRows t kpi) .invalid) r.date) = [] := by
      have : ∀ r ∈ usableRows t kpi,
          inWindow (resolveStartExtreme none da) none r.date = false :=
        fun r _ => inWindow_none_right _ _
      simp only [resolveEndExtreme]
      exact List.filter_eq_nil_iff.mpr (by simpa using this)
    exact ⟨_, by simp [siteExtremeBody, if_pos hc, hf]; rfl⟩
  · intro hc
    by_cases hdf : siteRowsOf t kpi siteStr = []
    · exact ⟨_, by simp [peakOutcome, if_pos hc, hdf, renderPeak]; rfl⟩
    · have hne := listIsEmpty_false_of_ne_nil hdf
      have hw : peakWindowRows t kpi siteStr .invalid da = [] := by
        unfold peakWindowRows peakWindowBounds
        apply List.filter_eq_nil_iff.mpr
        intro r _
        simp only [resolveStartPeak]
        simp [inWindow_none_left]
      exact ⟨_, by simp [peakOutcome, if_pos hc, hne, hw, renderPeak]; rfl⟩
  · intro hc
    by_cases hdf : siteRowsOf t kpi siteStr = []
    · exact ⟨_, by simp [peakOutcome, if_pos hc, hdf, renderPeak]; rfl⟩
    · have hne := listIsEmpty_false_of_ne_nil hdf
      have hw : peakWindowRows t kpi siteStr da .invalid = [] := by
        unfold peakWindowRows peakWindowBounds
        apply List.filter_eq_nil_iff.mpr
        intro r _
        simp only [resolveEndPeak]
        simp [inWindow_none_right]
      exact ⟨_, by simp [peakOutcome, if_pos hc, hne, hw, renderPeak]; rfl⟩
  · intro hc
    exact ⟨_, by simp [compareBody, if_pos hc, comparePipeline, strictGeRows]; rfl⟩
  · intro hc
    cases da with
    | omitted =>
        exact ⟨_, by simp [compareBody, if_pos hc, comparePipeline, strictGeRows, strictLeRows]; rfl⟩
    | invalid =>
        exact ⟨_, by simp [compareBody, if_pos hc, comparePipeline, strictGeRows]; rfl⟩
    | valid d =>
        exact ⟨_, by simp [compareBody, if_pos hc, comparePipeline, strictGeRows, strictLeRows]; rfl⟩

/-- c9 witness at concrete inputs: the tolerant tools return normal reports
on an unparsable date while compare_kpi_impact raises internally. -/
theorem c9_witness :
    anomBody "SINR" none none .invalid .omitted wEns wTbl =
      .ok ("No anomaly data found for `" ++ "SINR" ++ "` with given filters.")
  ∧ (∃ s, siteExtremeBody wTbl "SINR" "highest" .invalid .omitted = .ok s)
  ∧ (∃ e, compareBody grW wTbl "SINR" "RSRP" none .invalid .omitted = .error e) :=
  ⟨(c9_amended_unparsable_dates_tolerant_except_compare wEns wTbl wTbl grW "SINR"
      "highest" "SITE_001" "SINR" "RSRP" none none .omitted).1,
    (c9_amended_unparsable_dates_tolerant_except_compare wEns wTbl wTbl grW "SINR"
      "highest" "SITE_001" "SINR" "RSRP" none none .omitted).2.2.1 (by decide),
    (c9_amended_unparsable_dates_tolerant_except_compare wEns wTbl wTbl grW "SINR"
      "highest" "SITE_001" "SINR" "RSRP" none none .omitted).2.2.2.2.2.2.1
      ⟨by decide, by decide⟩⟩
